import Mathlib

/-!
Shallow embedding of the Quality Rating Engine of `dashboard_calidad`
(`metrics/quality_rating.py` and `metrics/maintainability_metrics.py`).

Python dicts with numeric values are modelled as association lists
`List (String × ℚ)` (`Dict`); `dict.get(k, default)` is `dictGet`, and
Python truthiness of an optional dict (`not self.junit_data`) is `isFalsy`
(true for `None` and for the empty dict).  Python floats are modelled as
exact rationals `ℚ`; the float-formatting directives `{x:.Nf}` used in the
detail/report strings are modelled by `fmtFixed` (round half to even at N
decimal places).  The methods of `QualityRatingCalculator` are pure
functions of the constructor data `(junit_data, jacoco_data)`; the methods
of `QualityReportGenerator` are given in explicit state-passing style,
returning the calculator state alongside the rendered string, with `none`
standing for a raised `KeyError`.
-/

namespace DashboardCalidad

/-- A Python dict with string keys and numeric values, as an association
list (keys are unique in a Python dict; lookup takes the first match). -/
abbrev Dict := List (String × ℚ)

/-- Python `d.get(key, default)`. -/
def dictGet (d : Dict) (k : String) (default : ℚ) : ℚ :=
  match d with
  | [] => default
  | (k2, v) :: rest => if k2 = k then v else dictGet rest k default

/-- Python falsiness of an optional dict: `None` and `{}` are falsy. -/
def isFalsy : Option Dict → Bool
  | none => true
  | some d => d.isEmpty

/-- Round half to even to an integer (the rounding Python's fixed-point
float formatting applies). -/
def roundHalfEven (q : ℚ) : ℤ :=
  let f : ℤ := ⌊q⌋
  let r : ℚ := q - f
  if r < 1/2 then f
  else if r > 1/2 then f + 1
  else if f % 2 = 0 then f else f + 1

/-- Left-pad a digit string with zeros to length `n`. -/
def natPadLeft (s : String) (n : ℕ) : String :=
  String.mk (List.replicate (n - s.length) '0') ++ s

/-- Model of Python's `f"{q:.nf}"` fixed-point formatting of a float. -/
def fmtFixed (q : ℚ) (n : ℕ) : String :=
  let m : ℤ := roundHalfEven (q * (10 : ℚ) ^ n)
  let sign := if m < 0 then ("-") else ("")
  let a : ℕ := m.natAbs
  let ip : ℕ := a / 10 ^ n
  let fp : ℕ := a % 10 ^ n
  if n = 0 then sign ++ toString ip
  else sign ++ toString ip ++ (".") ++ natPadLeft (toString fp) n

/-- QualityRatingCalculator.WEIGHT_RELIABILITY. -/
def WEIGHT_RELIABILITY : ℚ := 0.40

/-- QualityRatingCalculator.WEIGHT_MAINTAINABILITY. -/
def WEIGHT_MAINTAINABILITY : ℚ := 0.40

/-- QualityRatingCalculator.WEIGHT_PERFORMANCE. -/
def WEIGHT_PERFORMANCE : ℚ := 0.20

/-- QualityRatingCalculator.PERFORMANCE_THRESHOLD (seconds per test). -/
def PERFORMANCE_THRESHOLD : ℚ := 0.5

/-- QualityRatingCalculator.RATING_RANGES, in insertion order. -/
def RATING_RANGES : List (String × ℚ × ℚ) :=
  [(("A"), 90, 100), (("B"), 80, 89), (("C"), 70, 79), (("D"), 60, 69), (("E"), 0, 59)]

/-- QualityRatingCalculator.RATING_COLORS. -/
def RATING_COLORS : List (String × String) :=
  [(("A"), ("#28a745")), (("B"), ("#5cb85c")), (("C"), ("#ffc107")),
   (("D"), ("#fd7e14")), (("E"), ("#dc3545"))]

/-- The detail dict built by `calculate_reliability_score`: either the
error dict of the two guard paths or the full detail record
(fault_density is stored as a percentage, as in the source). -/
inductive RelDetails where
  | err (msg : String)
  | ok (total_tests failures errors fault_density : ℚ)
      (formula standard calculation : String)
  deriving DecidableEq

/-- The detail dict built by `calculate_maintainability_score`. -/
inductive MaintDetails where
  | err (msg : String)
  | ok (line_coverage branch_coverage lines_covered lines_total
        branches_covered branches_total : ℚ)
      (formula : String) (standards : List String) (calculation : String)
  deriving DecidableEq

/-- The detail dict built by `calculate_performance_score`: the error dict,
the `note` dict of the optimistic no-signal path, or the full record. -/
inductive PerfDetails where
  | err (msg : String)
  | note (msg : String)
  | ok (total_execution_time total_tests avg_test_time threshold_time
        throughput : ℚ)
      (formula standard calculation : String)
  deriving DecidableEq

/-- QualityRatingCalculator.calculate_reliability_score, as a function of
the constructor argument `junit_data`. -/
def calculate_reliability_score (junit_data : Option Dict) : ℚ × RelDetails :=
  if isFalsy junit_data then
    (0, .err ("No JUnit data available"))
  else
    let d := junit_data.getD []
    let total_tests := dictGet d ("total_tests") 0
    if total_tests = 0 then
      (0, .err ("No tests executed"))
    else
      let failures := dictGet d ("failures") 0
      let errors := dictGet d ("errors") 0
      let fault_density := (failures + errors) / total_tests
      let reliability_score := (1 - fault_density) * 100
      (reliability_score,
        .ok total_tests failures errors (fault_density * 100)
          ("RS = (1 - FD) × 100")
          ("IEEE Std 982.1-1988, Section 3.5.1")
          (("RS = (1 - ") ++ fmtFixed fault_density 4 ++ (") × 100 = ")
            ++ fmtFixed reliability_score 2))

/-- QualityRatingCalculator.calculate_maintainability_score, as a function
of the constructor argument `jacoco_data`. -/
def calculate_maintainability_score (jacoco_data : Option Dict) : ℚ × MaintDetails :=
  if isFalsy jacoco_data then
    (0, .err ("No JaCoCo data available"))
  else
    let d := jacoco_data.getD []
    let line_coverage := dictGet d ("line_coverage") 0
    let branch_coverage := dictGet d ("branch_coverage") 0
    let w_line : ℚ := 0.6
    let w_branch : ℚ := 0.4
    let maintainability_score := w_line * line_coverage + w_branch * branch_coverage
    (maintainability_score,
      .ok line_coverage branch_coverage
        (dictGet d ("lines_covered") 0) (dictGet d ("lines_total") 0)
        (dictGet d ("branches_covered") 0) (dictGet d ("branches_total") 0)
        ("MS = (0.6 × LC) + (0.4 × BC)")
        [("ISO/IEC 25010:2011, Section 4.2.6"), ("IEEE Std 829-2008, Section 5.3"),
         ("IEEE Std 1061-1998, Section 3.2.2")]
        (("MS = (0.6 × ") ++ fmtFixed line_coverage 2 ++ (") + (0.4 × ")
          ++ fmtFixed branch_coverage 2 ++ (") = ") ++ fmtFixed maintainability_score 2))

/-- MaintainabilityMetrics.get_testability_score (metrics/maintainability_metrics.py). -/
def get_testability_score (jacoco_data : Dict) : ℚ :=
  let line_cov := dictGet jacoco_data ("line_coverage") 0
  let branch_cov := dictGet jacoco_data ("branch_coverage") 0
  line_cov * 0.6 + branch_cov * 0.4

/-- QualityRatingCalculator.calculate_performance_score, as a function of
the constructor argument `junit_data`.  The Python repr of the constant
`PERFORMANCE_THRESHOLD` interpolated into the calculation string is "0.5". -/
def calculate_performance_score (junit_data : Option Dict) : ℚ × PerfDetails :=
  if isFalsy junit_data then
    (0, .err ("No JUnit data available"))
  else
    let d := junit_data.getD []
    let total_time := dictGet d ("execution_time") 0
    let total_tests := dictGet d ("total_tests") 0
    if total_tests = 0 ∨ total_time = 0 then
      (100, .note ("No performance data, assuming optimal"))
    else
      let avg_test_time := total_time / total_tests
      let performance_score :=
        if avg_test_time ≤ PERFORMANCE_THRESHOLD then (100 : ℚ)
        else min 100 ((PERFORMANCE_THRESHOLD / avg_test_time) * 100)
      let throughput := if total_time > 0 then total_tests / total_time else 0
      (performance_score,
        .ok total_time total_tests avg_test_time PERFORMANCE_THRESHOLD throughput
          ("PS = min(100, (Threshold / Avg_Time) × 100)")
          ("ISO/IEC 25010:2011, Section 4.2.1")
          (("PS = min(100, (0.5 / ") ++ fmtFixed avg_test_time 4 ++ (") × 100) = ")
            ++ fmtFixed performance_score 2))

/-- The band scan inside `_get_rating`: first band whose closed interval
contains `wqs` wins; after the loop the source returns the default "E". -/
def ratingScan : List (String × ℚ × ℚ) → ℚ → String
  | [], _ => ("E")
  | (rating, lo, hi) :: rest, wqs =>
      if lo ≤ wqs ∧ wqs ≤ hi then rating else ratingScan rest wqs

/-- QualityRatingCalculator._get_rating. -/
def get_rating (wqs : ℚ) : String := ratingScan RATING_RANGES wqs

/-- Python `RATING_COLORS[rating]` (total by construction: `get_rating`
only returns keys of the table). -/
def rating_color_of (rating : String) : String :=
  (RATING_COLORS.lookup rating).getD ("")

/-- The state of a QualityRatingCalculator: the two constructor arguments,
never reassigned by any method. -/
structure CalcState where
  junit_data : Option Dict
  jacoco_data : Option Dict
  deriving DecidableEq

/-- The detail dict built by `calculate_weighted_quality_score`. -/
structure WqsDetails where
  weighted_quality_score : ℚ
  rating : String
  rating_color : String
  weight_reliability : ℚ
  weight_maintainability : ℚ
  weight_performance : ℚ
  score_reliability : ℚ
  score_maintainability : ℚ
  score_performance : ℚ
  rel_details : RelDetails
  maint_details : MaintDetails
  perf_details : PerfDetails
  formula : String
  standard : String
  calculation : String
  deriving DecidableEq

/-- QualityRatingCalculator.calculate_weighted_quality_score. -/
def calculate_weighted_quality_score (s : CalcState) : ℚ × WqsDetails :=
  let (reliability_score, rel_details) := calculate_reliability_score s.junit_data
  let (maintainability_score, maint_details) := calculate_maintainability_score s.jacoco_data
  let (performance_score, perf_details) := calculate_performance_score s.junit_data
  let wqs :=
    WEIGHT_RELIABILITY * reliability_score +
    WEIGHT_MAINTAINABILITY * maintainability_score +
    WEIGHT_PERFORMANCE * performance_score
  let rating := get_rating wqs
  let rating_color := rating_color_of rating
  (wqs,
    { weighted_quality_score := wqs
      rating := rating
      rating_color := rating_color
      weight_reliability := WEIGHT_RELIABILITY
      weight_maintainability := WEIGHT_MAINTAINABILITY
      weight_performance := WEIGHT_PERFORMANCE
      score_reliability := reliability_score
      score_maintainability := maintainability_score
      score_performance := performance_score
      rel_details := rel_details
      maint_details := maint_details
      perf_details := perf_details
      formula := ("WQS = (0.40 × RS) + (0.40 × MS) + (0.20 × PS)")
      standard := ("ISO/IEC 25010:2011, Section 4.1")
      calculation :=
        ("WQS = (0.40 × ") ++ fmtFixed reliability_score 2 ++ (") + (0.40 × ")
          ++ fmtFixed maintainability_score 2 ++ (") + (0.20 × ")
          ++ fmtFixed performance_score 2 ++ (") = ") ++ fmtFixed wqs 2 })

/-- One entry of the `descriptions` table in `get_rating_description`. -/
structure RatingInfo where
  title : String
  description : String
  recommendation : String
  icon : String
  deriving DecidableEq

/-- The description record of rating E (also the defensive default). -/
def E_DESCRIPTION : RatingInfo :=
  { title := ("Crítico")
    description := ("Requiere Atención Inmediata - La calidad es inaceptable")
    recommendation := ("Revisión completa del código y estrategia de testing urgente")
    icon := ("🚨") }

/-- The `descriptions` table of `get_rating_description`. -/
def DESCRIPTIONS : List (String × RatingInfo) :=
  [(("A"),
    { title := ("Excelente")
      description := ("Calidad Superior - El código cumple con los más altos estándares de calidad")
      recommendation := ("Mantener las buenas prácticas actuales")
      icon := ("🏆") }),
   (("B"),
    { title := ("Bueno")
      description := ("Calidad Alta - El código está bien estructurado con mejoras menores posibles")
      recommendation := ("Enfocarse en alcanzar cobertura completa y reducir fallos ocasionales")
      icon := ("✅") }),
   (("C"),
    { title := ("Aceptable")
      description := ("Calidad Media - El código es funcional pero requiere mejoras")
      recommendation := ("Aumentar cobertura de pruebas y reducir la densidad de fallos")
      icon := ("⚠️") }),
   (("D"),
    { title := ("Pobre")
      description := ("Necesita Mejora - El código presenta deficiencias significativas")
      recommendation := ("Priorizar refactorización y aumento de pruebas unitarias")
      icon := ("❌") }),
   (("E"), E_DESCRIPTION)]

/-- QualityRatingCalculator.get_rating_description: total lookup,
defaulting to E's record (`descriptions.get(rating, descriptions['E'])`). -/
def get_rating_description (rating : String) : RatingInfo :=
  (DESCRIPTIONS.lookup rating).getD E_DESCRIPTION

/-- QualityReportGenerator.generate_text_report in explicit state-passing
style: the method reads the calculator state and never writes it, so the
translation returns the state it was given.  The result is `none` when the
Python code would raise `KeyError` reading `standard`/`formula` out of a
detail dict that is an error/note dict (any summary absent or empty, or
`total_tests`/`execution_time` zero), `some report` otherwise.  The
weight lines interpolate the floats 40.0/40.0/20.0 whose Python repr is
produced here by `fmtFixed · 1`. -/
def generate_text_report (s : CalcState) : Option String × CalcState :=
  let (wqs, details) := calculate_weighted_quality_score s
  let rating := details.rating
  let rating_info := get_rating_description rating
  match details.rel_details, details.maint_details, details.perf_details with
  | RelDetails.ok _rt _rf _re fd rformula rstandard rcalc,
    MaintDetails.ok _lc _bc _l1 _l2 _b1 _b2 mformula mstandards mcalc,
    PerfDetails.ok _t1 _t2 _t3 _t4 _t5 pformula pstandard pcalc =>
    let sep70 := String.mk (List.replicate 70 '=')
    let dash70 := String.mk (List.replicate 70 '-')
    let report : List String :=
      [sep70,
       ("REPORTE DE CALIDAD DE SOFTWARE"),
       ("Basado en Estándares IEEE/ISO"),
       sep70,
       (""),
       ("CALIFICACIÓN GENERAL: ") ++ rating_info.icon ++ (" ") ++ rating
         ++ (" - ") ++ rating_info.title,
       ("Puntuación WQS: ") ++ fmtFixed wqs 2 ++ ("/100"),
       (""),
       ("Descripción: ") ++ rating_info.description,
       ("Recomendación: ") ++ rating_info.recommendation,
       (""),
       dash70,
       ("1. FIABILIDAD (Reliability) - 40% del score total"),
       ("   Estándar: ") ++ rstandard,
       ("   Puntuación: ") ++ fmtFixed details.score_reliability 2 ++ ("/100"),
       ("   Fórmula: ") ++ rformula,
       ("   Cálculo: ") ++ rcalc,
       ("   Densidad de Fallos: ") ++ fmtFixed fd 2 ++ ("%"),
       (""),
       ("2. MANTENIBILIDAD (Maintainability) - 40% del score total"),
       ("   Estándares: ") ++ String.intercalate (", ") mstandards,
       ("   Puntuación: ") ++ fmtFixed details.score_maintainability 2 ++ ("/100"),
       ("   Fórmula: ") ++ mformula,
       ("   Cálculo: ") ++ mcalc,
       (""),
       ("3. EFICIENCIA DEL DESEMPEÑO (Performance) - 20% del score total"),
       ("   Estándar: ") ++ pstandard,
       ("   Puntuación: ") ++ fmtFixed details.score_performance 2 ++ ("/100"),
       ("   Fórmula: ") ++ pformula,
       ("   Cálculo: ") ++ pcalc,
       (""),
       dash70,
       ("CÁLCULO FINAL"),
       ("Fórmula: ") ++ details.formula,
       ("Cálculo: ") ++ details.calculation,
       (""),
       ("PONDERACIÓN (según ISO/IEC 25010:2011)"),
       ("  • Fiabilidad: ") ++ fmtFixed (details.weight_reliability * 100) 1 ++ ("%"),
       ("  • Mantenibilidad: ") ++ fmtFixed (details.weight_maintainability * 100) 1 ++ ("%"),
       ("  • Eficiencia: ") ++ fmtFixed (details.weight_performance * 100) 1 ++ ("%"),
       sep70]
    (some (String.intercalate ("\n") report), s)
  | _, _, _ => (none, s)

/-- QualityReportGenerator.generate_html_report, in the same style as
`generate_text_report`: the f-string template with its interpolations
evaluated, `none` when an interpolation would raise `KeyError`.  Literal
braces of the CSS (written `\x7b\x7b`/`\x7d\x7d` in the Python f-string)
appear escaped here; the template's indentation and trailing blanks are
kept byte for byte. -/
def generate_html_report (s : CalcState) : Option String × CalcState :=
  let (wqs, details) := calculate_weighted_quality_score s
  let rating := details.rating
  let rating_info := get_rating_description rating
  let color := details.rating_color
  match details.rel_details, details.maint_details, details.perf_details with
  | RelDetails.ok _rt _rf _re _fd rformula rstandard rcalc,
    MaintDetails.ok _lc _bc _l1 _l2 _b1 _b2 mformula mstandards mcalc,
    PerfDetails.ok _t1 _t2 _t3 _t4 _t5 pformula pstandard pcalc =>
    let html := String.intercalate ("\n")
      [(""),
       ("        <!DOCTYPE html>"),
       ("        <html>"),
       ("        <head>"),
       ("            <meta charset=\"UTF-8\">"),
       ("            <title>Reporte de Calidad de Software</title>"),
       ("            <style>"),
       ("                body \x7b font-family: Arial, sans-serif; margin: 40px; \x7d"),
       ("                .header \x7b text-align: center; background: #0d6efd; color: white; padding: 20px; \x7d"),
       ("                .rating \x7b text-align: center; margin: 30px 0; \x7d"),
       ("                .rating-badge \x7b "),
       ("                    display: inline-block;"),
       ("                    font-size: 72px;"),
       ("                    font-weight: bold;"),
       ("                    color: ") ++ color ++ (";"),
       ("                    border: 5px solid ") ++ color ++ (";"),
       ("                    border-radius: 50%;"),
       ("                    width: 150px;"),
       ("                    height: 150px;"),
       ("                    line-height: 150px;"),
       ("                \x7d"),
       ("                .score \x7b font-size: 24px; color: #666; margin: 10px 0; \x7d"),
       ("                .section \x7b margin: 30px 0; padding: 20px; background: #f8f9fa; border-left: 4px solid #0d6efd; \x7d"),
       ("                .metric \x7b margin: 15px 0; \x7d"),
       ("                .formula \x7b background: #e9ecef; padding: 10px; font-family: monospace; \x7d"),
       ("                table \x7b width: 100%; border-collapse: collapse; margin: 20px 0; \x7d"),
       ("                th, td \x7b padding: 12px; text-align: left; border-bottom: 1px solid #ddd; \x7d"),
       ("                th \x7b background: #0d6efd; color: white; \x7d"),
       ("            </style>"),
       ("        </head>"),
       ("        <body>"),
       ("            <div class=\"header\">"),
       ("                <h1>REPORTE DE CALIDAD DE SOFTWARE</h1>"),
       ("                <p>Basado en Estándares IEEE/ISO</p>"),
       ("            </div>"),
       ("            "),
       ("            <div class=\"rating\">"),
       ("                <div class=\"rating-badge\">") ++ rating ++ ("</div>"),
       ("                <h2>") ++ rating_info.title ++ ("</h2>"),
       ("                <div class=\"score\">Puntuación WQS: ") ++ fmtFixed wqs 2 ++ ("/100</div>"),
       ("                <p><strong>") ++ rating_info.description ++ ("</strong></p>"),
       ("                <p>Recomendación: ") ++ rating_info.recommendation ++ ("</p>"),
       ("            </div>"),
       ("            "),
       ("            <div class=\"section\">"),
       ("                <h3>🛡️ 1. FIABILIDAD (Reliability) - 40%</h3>"),
       ("                <div class=\"metric\">"),
       ("                    <strong>Estándar:</strong> ") ++ rstandard ++ ("<br>"),
       ("                    <strong>Puntuación:</strong> ") ++ fmtFixed details.score_reliability 2 ++ ("/100"),
       ("                </div>"),
       ("                <div class=\"formula\">"),
       ("                    <strong>Fórmula:</strong> ") ++ rformula ++ ("<br>"),
       ("                    <strong>Cálculo:</strong> ") ++ rcalc,
       ("                </div>"),
       ("            </div>"),
       ("            "),
       ("            <div class=\"section\">"),
       ("                <h3>⚙️ 2. MANTENIBILIDAD (Maintainability) - 40%</h3>"),
       ("                <div class=\"metric\">"),
       ("                    <strong>Estándares:</strong> ") ++ String.intercalate (", ") mstandards ++ ("<br>"),
       ("                    <strong>Puntuación:</strong> ") ++ fmtFixed details.score_maintainability 2 ++ ("/100"),
       ("                </div>"),
       ("                <div class=\"formula\">"),
       ("                    <strong>Fórmula:</strong> ") ++ mformula ++ ("<br>"),
       ("                    <strong>Cálculo:</strong> ") ++ mcalc,
       ("                </div>"),
       ("            </div>"),
       ("            "),
       ("            <div class=\"section\">"),
       ("                <h3>⏱️ 3. EFICIENCIA DEL DESEMPEÑO (Performance) - 20%</h3>"),
       ("                <div class=\"metric\">"),
       ("                    <strong>Estándar:</strong> ") ++ pstandard ++ ("<br>"),
       ("                    <strong>Puntuación:</strong> ") ++ fmtFixed details.score_performance 2 ++ ("/100"),
       ("                </div>"),
       ("                <div class=\"formula\">"),
       ("                    <strong>Fórmula:</strong> ") ++ pformula ++ ("<br>"),
       ("                    <strong>Cálculo:</strong> ") ++ pcalc,
       ("                </div>"),
       ("            </div>"),
       ("            "),
       ("            <div class=\"section\">"),
       ("                <h3>📊 CÁLCULO FINAL</h3>"),
       ("                <div class=\"formula\">"),
       ("                    <strong>Fórmula:</strong> ") ++ details.formula ++ ("<br>"),
       ("                    <strong>Cálculo:</strong> ") ++ details.calculation,
       ("                </div>"),
       ("                "),
       ("                <h4>Ponderación (según ISO/IEC 25010:2011)</h4>"),
       ("                <table>"),
       ("                    <tr>"),
       ("                        <th>Característica</th>"),
       ("                        <th>Peso</th>"),
       ("                        <th>Puntuación</th>"),
       ("                        <th>Contribución</th>"),
       ("                    </tr>"),
       ("                    <tr>"),
       ("                        <td>Fiabilidad</td>"),
       ("                        <td>") ++ fmtFixed (details.weight_reliability * 100) 0 ++ ("%</td>"),
       ("                        <td>") ++ fmtFixed details.score_reliability 2 ++ ("</td>"),
       ("                        <td>") ++ fmtFixed (details.weight_reliability * details.score_reliability) 2 ++ ("</td>"),
       ("                    </tr>"),
       ("                    <tr>"),
       ("                        <td>Mantenibilidad</td>"),
       ("                        <td>") ++ fmtFixed (details.weight_maintainability * 100) 0 ++ ("%</td>"),
       ("                        <td>") ++ fmtFixed details.score_maintainability 2 ++ ("</td>"),
       ("                        <td>") ++ fmtFixed (details.weight_maintainability * details.score_maintainability) 2 ++ ("</td>"),
       ("                    </tr>"),
       ("                    <tr>"),
       ("                        <td>Eficiencia</td>"),
       ("                        <td>") ++ fmtFixed (details.weight_performance * 100) 0 ++ ("%</td>"),
       ("                        <td>") ++ fmtFixed details.score_performance 2 ++ ("</td>"),
       ("                        <td>") ++ fmtFixed (details.weight_performance * details.score_performance) 2 ++ ("</td>"),
       ("                    </tr>"),
       ("                    <tr style=\"background: #e9ecef; font-weight: bold;\">"),
       ("                        <td>TOTAL</td>"),
       ("                        <td>100%</td>"),
       ("                        <td>-</td>"),
       ("                        <td>") ++ fmtFixed wqs 2 ++ ("</td>"),
       ("                    </tr>"),
       ("                </table>"),
       ("            </div>"),
       ("        </body>"),
       ("        </html>"),
       ("        ")]
    (some html, s)
  | _, _, _ => (none, s)

/-! Theorems -/

/-- C1: contrary to the claim, the band table does not cover [0,100] with
closed real-valued intervals of lower bounds 90/80/70/60: fractional
scores in the gaps (89,90), (79,80) fall through every band of
`RATING_RANGES` and `_get_rating` returns its default "E"; in particular
89.5 is rated "E", not "B".  (Integer-boundary inputs still land in the
bands: 89 ↦ "B", 90 ↦ "A".) -/
theorem rating_gap_fractional_scores :
    get_rating (89.5 : ℚ) = ("E") ∧ get_rating (89.5 : ℚ) ≠ ("B") ∧
    get_rating (79.99 : ℚ) = ("E") ∧ get_rating (89.999 : ℚ) = ("E") ∧
    get_rating (89 : ℚ) = ("B") ∧ get_rating (90 : ℚ) = ("A") := by
  have h : get_rating (89.5 : ℚ) = ("E") := by
    norm_num [get_rating, ratingScan, RATING_RANGES]
  refine ⟨h, ?_, ?_, ?_, ?_, ?_⟩ <;>
    first
    | (rw [h]; decide)
    | norm_num [get_rating, ratingScan, RATING_RANGES]

/-- C2 counterexample: with both summaries absent the performance scorer
takes the no-JUnit-data error path and returns 0.0, not the optimistic
100.0, so the weighted score is 0, not 20. -/
theorem absent_data_wqs_counterexample :
    (calculate_performance_score none).1 = 0 ∧
    (calculate_performance_score none).2 = PerfDetails.err ("No JUnit data available") ∧
    (calculate_weighted_quality_score ⟨none, none⟩).1 = 0 ∧
    (calculate_weighted_quality_score ⟨none, none⟩).1 ≠ 20 := by
  refine ⟨?_, ?_, ?_, ?_⟩ <;>
    norm_num [calculate_performance_score, calculate_reliability_score,
      calculate_maintainability_score, calculate_weighted_quality_score, isFalsy,
      WEIGHT_RELIABILITY, WEIGHT_MAINTAINABILITY, WEIGHT_PERFORMANCE]

/-- C2 amended: with both summaries absent all three scorers return 0
(performance included, via its own `No JUnit data available` error path),
so wqs = 0.40×0 + 0.40×0 + 0.20×0 = 0 and the rating is E. -/
theorem absent_data_scores_wqs_rating :
    (calculate_reliability_score none).1 = 0 ∧
    (calculate_maintainability_score none).1 = 0 ∧
    (calculate_performance_score none).1 = 0 ∧
    (calculate_weighted_quality_score ⟨none, none⟩).1 = 0 ∧
    (calculate_weighted_quality_score ⟨none, none⟩).2.rating = ("E") := by
  refine ⟨?_, ?_, ?_, ?_, ?_⟩ <;>
    norm_num [calculate_performance_score, calculate_reliability_score,
      calculate_maintainability_score, calculate_weighted_quality_score, isFalsy,
      WEIGHT_RELIABILITY, WEIGHT_MAINTAINABILITY, WEIGHT_PERFORMANCE,
      get_rating, ratingScan, RATING_RANGES]

/-- The JUnit summary of the spec's reference scenario (claim C3). -/
def C3_RUN : Dict :=
  [(("total_tests"), 100), (("passed"), 95), (("failures"), 3),
   (("errors"), 2), (("skipped"), 0), (("execution_time"), 45)]

/-- The JaCoCo summary of the spec's reference scenario (claim C3). -/
def C3_COV : Dict :=
  [(("line_coverage"), 85), (("branch_coverage"), 70)]

/-- C3: on the reference scenario the three component scores and the
weighted score are as claimed (95.0, 79.0, 100.0, wqs = 89.6), but the
rating is "E", not the claimed "B": 89.6 lies in the gap (89,90) of the
integer band table and `_get_rating` falls through to its default. -/
theorem reference_scenario_evaluation :
    (calculate_reliability_score (some C3_RUN)).1 = 95 ∧
    (calculate_maintainability_score (some C3_COV)).1 = 79 ∧
    (calculate_performance_score (some C3_RUN)).1 = 100 ∧
    (calculate_weighted_quality_score ⟨some C3_RUN, some C3_COV⟩).1 = 89.6 ∧
    (calculate_weighted_quality_score ⟨some C3_RUN, some C3_COV⟩).2.rating = ("E") := by
  refine ⟨?_, ?_, ?_, ?_, ?_⟩ <;>
    simp [calculate_performance_score, calculate_reliability_score,
      calculate_maintainability_score, calculate_weighted_quality_score, isFalsy,
      WEIGHT_RELIABILITY, WEIGHT_MAINTAINABILITY, WEIGHT_PERFORMANCE,
      PERFORMANCE_THRESHOLD, get_rating, ratingScan, RATING_RANGES,
      C3_RUN, C3_COV, dictGet] <;>
    norm_num

/-- A non-empty dict is truthy. -/
theorem isFalsy_some_of_ne {d : Dict} (hne : d ≠ []) : isFalsy (some d) = false := by
  cases d with
  | nil => exact absurd rfl hne
  | cons a t => rfl

/-- C4: with junit_data present (a non-empty dict) but total_tests = 0 or
execution_time = 0, the performance scorer returns the optimistic 100.0
with a note detail, not an error — unlike the reliability scorer, which
returns 0.0 with an error in its zero-denominator case, and the
maintainability scorer, which returns 0.0 with an error when its summary
is absent. -/
theorem performance_no_signal_optimistic (d : Dict) (hne : d ≠ [])
    (h : dictGet d ("total_tests") 0 = 0 ∨ dictGet d ("execution_time") 0 = 0) :
    calculate_performance_score (some d) =
      (100, PerfDetails.note ("No performance data, assuming optimal")) ∧
    (dictGet d ("total_tests") 0 = 0 →
      calculate_reliability_score (some d) = (0, RelDetails.err ("No tests executed"))) ∧
    calculate_maintainability_score none = (0, MaintDetails.err ("No JaCoCo data available")) := by
  have hf := isFalsy_some_of_ne hne
  refine ⟨?_, ?_, ?_⟩
  · simp only [calculate_performance_score, hf, Bool.false_eq_true, if_false,
      Option.getD_some]
    rw [if_pos h]
  · intro h0
    simp [calculate_reliability_score, hf, h0]
  · simp [calculate_maintainability_score, isFalsy]

/-- C4 witness: the dict with total_tests = 0 and nothing else. -/
theorem performance_no_signal_optimistic_witness :
    calculate_performance_score (some [(("total_tests"), 0)]) =
      (100, PerfDetails.note ("No performance data, assuming optimal")) ∧
    calculate_reliability_score (some [(("total_tests"), 0)]) =
      (0, RelDetails.err ("No tests executed")) :=
  have h := performance_no_signal_optimistic [(("total_tests"), 0)]
    (List.cons_ne_nil _ _) (Or.inl (by simp [dictGet]))
  ⟨h.1, h.2.1 (by simp [dictGet])⟩

/-- C5: the reliability scorer implements RS = (1 − (failures + errors) /
total_tests) × 100; with a positive test count and no failures or errors
it returns exactly 100.0, and with a zero test count it returns 0.0 with
the no-tests error detail. -/
theorem reliability_formula_and_edge_cases (d : Dict) (hne : d ≠ []) :
    (dictGet d ("total_tests") 0 ≠ 0 →
      (calculate_reliability_score (some d)).1 =
        (1 - (dictGet d ("failures") 0 + dictGet d ("errors") 0) /
          dictGet d ("total_tests") 0) * 100) ∧
    (0 < dictGet d ("total_tests") 0 → dictGet d ("failures") 0 = 0 →
      dictGet d ("errors") 0 = 0 → (calculate_reliability_score (some d)).1 = 100) ∧
    (dictGet d ("total_tests") 0 = 0 →
      calculate_reliability_score (some d) = (0, RelDetails.err ("No tests executed"))) := by
  have hf := isFalsy_some_of_ne hne
  refine ⟨?_, ?_, ?_⟩
  · intro h0
    simp [calculate_reliability_score, hf, h0]
  · intro hpos hfl herr
    simp [calculate_reliability_score, hf, ne_of_gt hpos, hfl, herr]
  · intro h0
    simp [calculate_reliability_score, hf, h0]

/-- C5 witness: ten tests, no failures and no errors score exactly 100. -/
theorem reliability_perfect_run_witness :
    (calculate_reliability_score (some [(("total_tests"), 10)])).1 = 100 :=
  (reliability_formula_and_edge_cases [(("total_tests"), 10)]
      (List.cons_ne_nil _ _)).2.1
    (by simp [dictGet]; try norm_num) (by simp [dictGet]) (by simp [dictGet])

/-- C6: the maintainability scorer implements MS = 0.6 × line_coverage +
0.4 × branch_coverage (agreeing with
MaintainabilityMetrics.get_testability_score), and full coverage yields
exactly 100.0. -/
theorem maintainability_formula_and_full_coverage (d : Dict) (hne : d ≠ []) :
    (calculate_maintainability_score (some d)).1 =
      0.6 * dictGet d ("line_coverage") 0 + 0.4 * dictGet d ("branch_coverage") 0 ∧
    (calculate_maintainability_score (some d)).1 = get_testability_score d ∧
    (dictGet d ("line_coverage") 0 = 100 → dictGet d ("branch_coverage") 0 = 100 →
      (calculate_maintainability_score (some d)).1 = 100) := by
  have hf := isFalsy_some_of_ne hne
  refine ⟨?_, ?_, ?_⟩
  · simp [calculate_maintainability_score, hf]
  · simp [calculate_maintainability_score, get_testability_score, hf]
    ring
  · intro h1 h2
    simp [calculate_maintainability_score, hf, h1, h2]
    norm_num

/-- C6 witness: full line and branch coverage score exactly 100. -/
theorem maintainability_full_coverage_witness :
    (calculate_maintainability_score
        (some [(("line_coverage"), 100), (("branch_coverage"), 100)])).1 = 100 :=
  (maintainability_formula_and_full_coverage
      [(("line_coverage"), 100), (("branch_coverage"), 100)]
      (List.cons_ne_nil _ _)).2.2
    (by simp [dictGet]) (by simp [dictGet])

/-- C7: for a run with positive test count and positive execution time,
an average test time at or below the 0.5 s threshold (boundary included)
scores exactly 100.0, an average of twice the threshold scores exactly
50.0, and the score always lies in [0, 100]. -/
theorem performance_threshold_and_bounds (d : Dict)
    (ht : 0 < dictGet d ("total_tests") 0)
    (he : 0 < dictGet d ("execution_time") 0) :
    (dictGet d ("execution_time") 0 / dictGet d ("total_tests") 0 ≤ PERFORMANCE_THRESHOLD →
      (calculate_performance_score (some d)).1 = 100) ∧
    (dictGet d ("execution_time") 0 / dictGet d ("total_tests") 0 = 2 * PERFORMANCE_THRESHOLD →
      (calculate_performance_score (some d)).1 = 50) ∧
    0 ≤ (calculate_performance_score (some d)).1 ∧
    (calculate_performance_score (some d)).1 ≤ 100 := by
  have hne : d ≠ [] := by
    intro hd
    rw [hd] at ht
    simp [dictGet] at ht
  have hf := isFalsy_some_of_ne hne
  have ht0 : dictGet d ("total_tests") 0 ≠ 0 := ne_of_gt ht
  have he0 : dictGet d ("execution_time") 0 ≠ 0 := ne_of_gt he
  have havg : 0 < dictGet d ("execution_time") 0 / dictGet d ("total_tests") 0 :=
    div_pos he ht
  simp only [calculate_performance_score, hf, Bool.false_eq_true, if_false,
    Option.getD_some]
  rw [if_neg (not_or.mpr ⟨ht0, he0⟩)]
  refine ⟨?_, ?_, ?_, ?_⟩
  · intro hle
    simp [if_pos hle]
  · intro heq
    have hgt : ¬ (dictGet d ("execution_time") 0 / dictGet d ("total_tests") 0 ≤
        PERFORMANCE_THRESHOLD) := by
      rw [heq]
      norm_num [PERFORMANCE_THRESHOLD]
    rw [if_neg hgt]
    simp only [heq]
    norm_num [PERFORMANCE_THRESHOLD, min_def]
  · by_cases hc : dictGet d ("execution_time") 0 / dictGet d ("total_tests") 0 ≤
        PERFORMANCE_THRESHOLD
    · simp [if_pos hc]
    · rw [if_neg hc]
      simp only
      refine le_min (by norm_num) ?_
      have h1 : 0 ≤ PERFORMANCE_THRESHOLD /
          (dictGet d ("execution_time") 0 / dictGet d ("total_tests") 0) :=
        div_nonneg (by norm_num [PERFORMANCE_THRESHOLD]) havg.le
      exact mul_nonneg h1 (by norm_num)
  · by_cases hc : dictGet d ("execution_time") 0 / dictGet d ("total_tests") 0 ≤
        PERFORMANCE_THRESHOLD
    · simp [if_pos hc]
    · rw [if_neg hc]
      exact min_le_left _ _

/-- C7 witness: four tests in four seconds (average 1 s = 2 × threshold)
score exactly 50. -/
theorem performance_double_threshold_witness :
    (calculate_performance_score
        (some [(("total_tests"), 4), (("execution_time"), 4)])).1 = 50 :=
  (performance_threshold_and_bounds [(("total_tests"), 4), (("execution_time"), 4)]
      (by simp [dictGet]; try norm_num) (by simp [dictGet]; try norm_num)).2.1
    (by simp [dictGet]; norm_num [PERFORMANCE_THRESHOLD])

/-- The TestRunSummary data-model invariant of the spec, stated on the
values the scorers read out of the dict: non-negative counts and
execution time, and the four status counts summing to total_tests. -/
def junit_invariant (oj : Option Dict) : Bool :=
  match oj with
  | none => true
  | some d =>
    decide (0 ≤ dictGet d ("passed") 0 ∧ 0 ≤ dictGet d ("failures") 0 ∧
      0 ≤ dictGet d ("errors") 0 ∧ 0 ≤ dictGet d ("skipped") 0 ∧
      0 ≤ dictGet d ("execution_time") 0 ∧
      dictGet d ("passed") 0 + dictGet d ("failures") 0 + dictGet d ("errors") 0 +
        dictGet d ("skipped") 0 = dictGet d ("total_tests") 0)

/-- The CoverageSummary data-model invariant of the spec: the coverage
percentages the scorer reads lie in [0,100]. -/
def coverage_invariant (oc : Option Dict) : Bool :=
  match oc with
  | none => true
  | some d =>
    decide ((0 ≤ dictGet d ("line_coverage") 0 ∧ dictGet d ("line_coverage") 0 ≤ 100) ∧
      (0 ≤ dictGet d ("branch_coverage") 0 ∧ dictGet d ("branch_coverage") 0 ≤ 100))

/-- Under the run invariant the reliability score lies in [0,100]. -/
theorem reliability_score_in_range (oj : Option Dict) (h : junit_invariant oj = true) :
    0 ≤ (calculate_reliability_score oj).1 ∧ (calculate_reliability_score oj).1 ≤ 100 := by
  match oj with
  | none => simp [calculate_reliability_score, isFalsy]
  | some d =>
    simp only [junit_invariant, decide_eq_true_eq] at h
    obtain ⟨hp, hfl, herr, hsk, het, hsum⟩ := h
    rcases eq_or_ne d [] with hd | hd
    · subst hd
      simp [calculate_reliability_score, isFalsy]
    · have hf := isFalsy_some_of_ne hd
      rcases eq_or_ne (dictGet d ("total_tests") 0) 0 with h0 | h0
      · simp [calculate_reliability_score, hf, h0]
      · have htpos : 0 < dictGet d ("total_tests") 0 :=
          lt_of_le_of_ne (by linarith) (Ne.symm h0)
        simp only [calculate_reliability_score, hf, Bool.false_eq_true, if_false,
          Option.getD_some, if_neg h0]
        have hfd0 : 0 ≤ (dictGet d ("failures") 0 + dictGet d ("errors") 0) /
            dictGet d ("total_tests") 0 :=
          div_nonneg (by linarith) htpos.le
        have hfd1 : (dictGet d ("failures") 0 + dictGet d ("errors") 0) /
            dictGet d ("total_tests") 0 ≤ 1 := by
          rw [div_le_one htpos]
          linarith
        constructor
        · exact mul_nonneg (by linarith) (by norm_num)
        · nlinarith

/-- Under the coverage invariant the maintainability score lies in [0,100]. -/
theorem maintainability_score_in_range (oc : Option Dict)
    (h : coverage_invariant oc = true) :
    0 ≤ (calculate_maintainability_score oc).1 ∧
    (calculate_maintainability_score oc).1 ≤ 100 := by
  match oc with
  | none => simp [calculate_maintainability_score, isFalsy]
  | some d =>
    simp only [coverage_invariant, decide_eq_true_eq] at h
    obtain ⟨⟨hl0, hl1⟩, hb0, hb1⟩ := h
    rcases eq_or_ne d [] with hd | hd
    · subst hd
      simp [calculate_maintainability_score, isFalsy]
    · have hf := isFalsy_some_of_ne hd
      simp only [calculate_maintainability_score, hf, Bool.false_eq_true, if_false,
        Option.getD_some]
      constructor
      · nlinarith
      · nlinarith

/-- Under the run invariant the performance score lies in [0,100]. -/
theorem performance_score_in_range (oj : Option Dict) (h : junit_invariant oj = true) :
    0 ≤ (calculate_performance_score oj).1 ∧ (calculate_performance_score oj).1 ≤ 100 := by
  match oj with
  | none => simp [calculate_performance_score, isFalsy]
  | some d =>
    simp only [junit_invariant, decide_eq_true_eq] at h
    obtain ⟨hp, hfl, herr, hsk, het, hsum⟩ := h
    rcases eq_or_ne d [] with hd | hd
    · subst hd
      simp [calculate_performance_score, isFalsy]
    · have hf := isFalsy_some_of_ne hd
      by_cases h0 : dictGet d ("total_tests") 0 = 0 ∨ dictGet d ("execution_time") 0 = 0
      · simp [calculate_performance_score, hf, if_pos h0]
      · have ht0 : dictGet d ("total_tests") 0 ≠ 0 := fun hx => h0 (Or.inl hx)
        have he0 : dictGet d ("execution_time") 0 ≠ 0 := fun hx => h0 (Or.inr hx)
        have htpos : 0 < dictGet d ("total_tests") 0 :=
          lt_of_le_of_ne (by linarith) (Ne.symm ht0)
        have hepos : 0 < dictGet d ("execution_time") 0 :=
          lt_of_le_of_ne het (Ne.symm he0)
        have havg : 0 < dictGet d ("execution_time") 0 / dictGet d ("total_tests") 0 :=
          div_pos hepos htpos
        simp only [calculate_performance_score, hf, Bool.false_eq_true, if_false,
          Option.getD_some, if_neg h0]
        by_cases hc : dictGet d ("execution_time") 0 / dictGet d ("total_tests") 0 ≤
            PERFORMANCE_THRESHOLD
        · simp [if_pos hc]
        · rw [if_neg hc]
          constructor
          · refine le_min (by norm_num) ?_
            exact mul_nonneg
              (div_nonneg (by norm_num [PERFORMANCE_THRESHOLD]) havg.le) (by norm_num)
          · exact min_le_left _ _

/-- C8: under the data-model invariants (counts non-negative and summing
to total_tests, execution time non-negative, coverage percentages in
[0,100]) every component score and the weighted quality score lie in
[0,100], for any combination of present and absent summaries. -/
theorem all_scores_in_range (oj oc : Option Dict)
    (hj : junit_invariant oj = true) (hc : coverage_invariant oc = true) :
    (0 ≤ (calculate_reliability_score oj).1 ∧ (calculate_reliability_score oj).1 ≤ 100) ∧
    (0 ≤ (calculate_maintainability_score oc).1 ∧
      (calculate_maintainability_score oc).1 ≤ 100) ∧
    (0 ≤ (calculate_performance_score oj).1 ∧ (calculate_performance_score oj).1 ≤ 100) ∧
    (0 ≤ (calculate_weighted_quality_score ⟨oj, oc⟩).1 ∧
      (calculate_weighted_quality_score ⟨oj, oc⟩).1 ≤ 100) := by
  have hr := reliability_score_in_range oj hj
  have hm := maintainability_score_in_range oc hc
  have hp := performance_score_in_range oj hj
  have hwqs : (calculate_weighted_quality_score ⟨oj, oc⟩).1 =
      WEIGHT_RELIABILITY * (calculate_reliability_score oj).1 +
      WEIGHT_MAINTAINABILITY * (calculate_maintainability_score oc).1 +
      WEIGHT_PERFORMANCE * (calculate_performance_score oj).1 := rfl
  obtain ⟨hr1, hr2⟩ := hr
  obtain ⟨hm1, hm2⟩ := hm
  obtain ⟨hp1, hp2⟩ := hp
  refine ⟨⟨hr1, hr2⟩, ⟨hm1, hm2⟩, ⟨hp1, hp2⟩, ?_, ?_⟩ <;>
    rw [hwqs] <;>
    simp only [WEIGHT_RELIABILITY, WEIGHT_MAINTAINABILITY, WEIGHT_PERFORMANCE] <;>
    nlinarith

/-- C8 witness: a five-test run with one failure and partial coverage. -/
theorem all_scores_in_range_witness :
    0 ≤ (calculate_weighted_quality_score
        ⟨some [(("total_tests"), 5), (("passed"), 4), (("failures"), 1),
               (("errors"), 0), (("skipped"), 0), (("execution_time"), 2)],
         some [(("line_coverage"), 80), (("branch_coverage"), 60)]⟩).1 ∧
    (calculate_weighted_quality_score
        ⟨some [(("total_tests"), 5), (("passed"), 4), (("failures"), 1),
               (("errors"), 0), (("skipped"), 0), (("execution_time"), 2)],
         some [(("line_coverage"), 80), (("branch_coverage"), 60)]⟩).1 ≤ 100 :=
  (all_scores_in_range
      (some [(("total_tests"), 5), (("passed"), 4), (("failures"), 1),
             (("errors"), 0), (("skipped"), 0), (("execution_time"), 2)])
      (some [(("line_coverage"), 80), (("branch_coverage"), 60)])
      (by simp [junit_invariant, dictGet]; norm_num)
      (by simp [coverage_invariant, dictGet]; norm_num)).2.2.2

/-- C9: both report generators are pure functions of the calculator
state: they leave the state exactly as they found it, and a second call
on the post-call state renders the identical string (including when the
render aborts with a KeyError, modelled as `none`). -/
theorem report_generation_pure (s : CalcState) :
    (generate_text_report s).2 = s ∧
    (generate_html_report s).2 = s ∧
    (generate_text_report ((generate_text_report s).2)).1 = (generate_text_report s).1 ∧
    (generate_html_report ((generate_html_report s).2)).1 = (generate_html_report s).1 := by
  have h1 : ∀ s1 : CalcState, (generate_text_report s1).2 = s1 := by
    intro s1
    unfold generate_text_report
    split
    split <;> rfl
  have h2 : ∀ s1 : CalcState, (generate_html_report s1).2 = s1 := by
    intro s1
    unfold generate_html_report
    split
    split <;> rfl
  exact ⟨h1 s, h2 s, by rw [h1 s], by rw [h2 s]⟩

/-- Whether a dict has an entry for a key (Python `k in d`). -/
def hasKey (d : Dict) (k : String) : Bool :=
  match d with
  | [] => false
  | (k2, _) :: rest => if k2 = k then true else hasKey rest k

/-- Looking up a missing key yields the default. -/
theorem dictGet_of_not_hasKey (d : Dict) (k : String) (v : ℚ)
    (h : hasKey d k = false) : dictGet d k v = v := by
  induction d with
  | nil => rfl
  | cons a t ih =>
    obtain ⟨k2, x⟩ := a
    by_cases hk : k2 = k
    · simp [hasKey, hk] at h
    · simp only [hasKey, hk, if_false] at h
      simp only [dictGet, hk, if_false]
      exact ih h

/-- C10: a non-empty jacoco dict that lacks line_coverage or
branch_coverage is not rejected: the scorer silently defaults each
missing field to 0 and computes the weighted score from the defaults,
never producing the error detail; the NoData error path (0.0 with an
error detail) is taken exactly when jacoco_data is absent or the empty
dict. -/
theorem maintainability_missing_fields_default (d : Dict) (hne : d ≠ [])
    (h : hasKey d ("line_coverage") = false ∨ hasKey d ("branch_coverage") = false) :
    (∀ msg, (calculate_maintainability_score (some d)).2 ≠ MaintDetails.err msg) ∧
    (calculate_maintainability_score (some d)).1 =
      0.6 * dictGet d ("line_coverage") 0 + 0.4 * dictGet d ("branch_coverage") 0 ∧
    (dictGet d ("line_coverage") 0 = 0 ∨ dictGet d ("branch_coverage") 0 = 0) ∧
    calculate_maintainability_score none = (0, MaintDetails.err ("No JaCoCo data available")) ∧
    calculate_maintainability_score (some []) =
      (0, MaintDetails.err ("No JaCoCo data available")) := by
  have hf := isFalsy_some_of_ne hne
  refine ⟨?_, ?_, ?_, ?_, ?_⟩
  · intro msg
    simp [calculate_maintainability_score, hf]
  · simp [calculate_maintainability_score, hf]
  · rcases h with hmiss | hmiss
    · exact Or.inl (dictGet_of_not_hasKey d ("line_coverage") 0 hmiss)
    · exact Or.inr (dictGet_of_not_hasKey d ("branch_coverage") 0 hmiss)
  · simp [calculate_maintainability_score, isFalsy]
  · simp [calculate_maintainability_score, isFalsy]

/-- C10 witness: the dict holding only branch_coverage = 50 scores
0.6×0 + 0.4×50 = 20 and is not flagged as NoData. -/
theorem maintainability_missing_line_coverage_witness :
    (∀ msg, (calculate_maintainability_score
        (some [(("branch_coverage"), 50)])).2 ≠ MaintDetails.err msg) ∧
    (calculate_maintainability_score (some [(("branch_coverage"), 50)])).1 =
      0.6 * dictGet [(("branch_coverage"), 50)] ("line_coverage") 0 +
      0.4 * dictGet [(("branch_coverage"), 50)] ("branch_coverage") 0 :=
  have h := maintainability_missing_fields_default [(("branch_coverage"), 50)]
    (List.cons_ne_nil _ _) (Or.inl (by simp [hasKey]))
  ⟨h.1, h.2.1⟩

end DashboardCalidad
